import Mathlib

/-!
Verification development for the users-insights repository.

The definitions below are a shallow embedding of the Python sources:
* `src/services/github_client_service.py` (`GitHubAPIService.request_with_rate_limit`),
* `src/services/github_insights_service.py` (`GitHubInsightsService`),
* `src/services/metrics/languages.py` (`LanguagesMostUsed`),
* `src/services/metrics/pull_requests.py` (`RepositoriesWithMorePRs`),
* `src/services/metrics/activity.py` (`ActivityRecent`),
* `src/config/settings.py` (`Settings`).

Modelling conventions:
* JSON bodies are the inductive `Json`; a `request_with_rate_limit` outcome that is
  Python `None` is `Option.none`.
* Python runtime exceptions are the `PyErr` type and fallible code runs in `Except PyErr`.
* Wall-clock time is modelled at day granularity (an integer count of days since
  1970-01-01, i.e. midnight UTC); `time.time()` inside one client attempt is a single
  instant, and `time.sleep(w)` advances the clock by exactly `w`.
* HTTP header values that the code parses with `int(...)` are modelled already parsed.
-/

mutual

/-- A JSON value as produced by `response.json()`. Arrays and objects use the
mutually defined list types `JsonArr` and `JsonObj` (so that decidable equality
can be derived); `JsonArr.toList` / `JsonObj.toList` convert to plain lists. -/
inductive Json where
  | null : Json
  | bool : Bool → Json
  | num : Int → Json
  | str : String → Json
  | arr : JsonArr → Json
  | obj : JsonObj → Json
deriving Repr, DecidableEq

/-- The elements of a JSON array. -/
inductive JsonArr where
  | nil : JsonArr
  | cons : Json → JsonArr → JsonArr
deriving Repr, DecidableEq

/-- The key/value fields of a JSON object, in insertion order. -/
inductive JsonObj where
  | nil : JsonObj
  | cons : String → Json → JsonObj → JsonObj
deriving Repr, DecidableEq

end

instance : Inhabited Json := ⟨.null⟩

/-- The element list of a JSON array. -/
def JsonArr.toList : JsonArr → List Json
  | .nil => []
  | .cons x xs => x :: xs.toList

/-- Build a JSON array from a list of values. -/
def JsonArr.ofList : List Json → JsonArr
  | [] => .nil
  | x :: xs => .cons x (JsonArr.ofList xs)

/-- The field list of a JSON object. -/
def JsonObj.toList : JsonObj → List (String × Json)
  | .nil => []
  | .cons k v fs => (k, v) :: fs.toList

/-- Build a JSON object from a list of fields. -/
def JsonObj.ofList : List (String × Json) → JsonObj
  | [] => .nil
  | (k, v) :: fs => .cons k v (JsonObj.ofList fs)

/-- A JSON array literal from a plain list. -/
def Json.arrL (xs : List Json) : Json := .arr (JsonArr.ofList xs)

/-- A JSON object literal from a plain field list. -/
def Json.objL (fs : List (String × Json)) : Json := .obj (JsonObj.ofList fs)

/-- Python runtime exception classes that the embedded code can raise. -/
inductive PyErr where
  | typeError
  | keyError
  | attributeError
  | valueError
deriving Repr, DecidableEq

/-- Python truthiness of a JSON value (`bool(x)`). -/
def Json.truthy : Json → Bool
  | .null => false
  | .bool b => b
  | .num n => n != 0
  | .str s => s != ""
  | .arr xs => !xs.toList.isEmpty
  | .obj fs => !fs.toList.isEmpty

/-- Python truthiness of an optional JSON value: `None` is falsy. -/
def optTruthy : Option Json → Bool
  | none => false
  | some j => j.truthy

/-- Python membership test `key in value` for a string key: dict → key lookup,
list → element membership, string → substring; other values raise `TypeError`. -/
def pyContains (j : Json) (key : String) : Except PyErr Bool :=
  match j with
  | .obj fs => .ok (List.lookup key fs.toList).isSome
  | .arr xs => .ok (xs.toList.contains (.str key))
  | .str s => .ok (decide ((s.splitOn key).length ≥ 2) || key == "")
  | _ => .error .typeError

/-- Python subscription `value[key]` for a string key: dict → value or `KeyError`;
anything else raises `TypeError`. -/
def pySubscript (j : Json) (key : String) : Except PyErr Json :=
  match j with
  | .obj fs =>
    match List.lookup key fs.toList with
    | some v => .ok v
    | none => .error .keyError
  | _ => .error .typeError

/-- Python iteration `for x in value`: list → elements, dict → keys,
string → characters; other values raise `TypeError`. -/
def pyIter (j : Json) : Except PyErr (List Json) :=
  match j with
  | .arr xs => .ok xs.toList
  | .obj fs => .ok (fs.toList.map (fun kv => .str kv.1))
  | .str s => .ok (s.toList.map (fun c => .str (String.singleton c)))
  | _ => .error .typeError

/-- Python `len(value)`: list length, dict size, string length; other values
raise `TypeError`. -/
def pyLen (j : Json) : Except PyErr Int :=
  match j with
  | .arr xs => .ok xs.toList.length
  | .obj fs => .ok fs.toList.length
  | .str s => .ok s.length
  | _ => .error .typeError

/-- Python `value.get(key, default)`: only dicts have `.get`; other values raise
`AttributeError`. -/
def pyDictGet (j : Json) (key : String) (default : Json) : Except PyErr Json :=
  match j with
  | .obj fs => .ok ((List.lookup key fs.toList).getD default)
  | _ => .error .attributeError

/-- Python `str(...)` / f-string interpolation of a JSON value (only the cases the
embedded code can reach). -/
def pyStrOf : Json → String
  | .null => "None"
  | .bool b => if b then "True" else "False"
  | .num n => toString n
  | .str s => s
  | .arr _ => "[...]"
  | .obj _ => "\x7b...\x7d"

/-- f-string interpolation of an attribute that may be Python `None`
(used for the unset pagination settings). -/
def pyStrOptStr : Option String → String
  | none => "None"
  | some s => s

/-!
## RateLimitedClient: `GitHubAPIService.request_with_rate_limit`

```
for attempt in range(retries):
    response = requests.get(parse_url, headers=self.headers)
    if response.status_code == 200:
        return response.json()
    elif response.status_code == 403 and "X-RateLimit-Remaining" in response.headers:
        reset_time = int(response.headers.get("X-RateLimit-Reset", time.time()))
        wait_time = max(reset_time - int(time.time()), 1)
        time.sleep(wait_time)
    else:
        return None
raise Exception("...")
```

The sequence of upstream responses is a function from attempt index to response.
-/

/-- An HTTP response as observed by the client: status code, whether the
`X-RateLimit-Remaining` header is present, the parsed `X-RateLimit-Reset` header
when present, and the parsed JSON body. -/
structure HttpResponse where
  status : Nat
  hasRateLimitRemaining : Bool
  rateLimitReset : Option Int
  body : Json
deriving Repr, DecidableEq

/-- Outcome of one `request_with_rate_limit` call: a parsed body, Python `None`,
or the final `raise Exception(...)` after the retry budget is exhausted. -/
inductive ReqResult where
  | success : Json → ReqResult
  | noneResult : ReqResult
  | exhausted : ReqResult
deriving Repr, DecidableEq

/-- A response is a rate-limit signal when the status is 403 and the
`X-RateLimit-Remaining` header is present. -/
def isRateLimit (r : HttpResponse) : Bool :=
  r.status == 403 && r.hasRateLimitRemaining

/-- The retry loop of `request_with_rate_limit`: `i` is the next attempt index,
`budget` the remaining attempts, `now` the current epoch time. Returns the outcome
together with the list of sleep durations performed, in order. -/
def rwrlAux (env : Nat → HttpResponse) : Nat → Nat → Int → ReqResult × List Int
  | _, 0, _ => (.exhausted, [])
  | i, budget + 1, now =>
    let r := env i
    if r.status == 200 then
      (.success r.body, [])
    else if r.status == 403 && r.hasRateLimitRemaining then
      let resetTime := r.rateLimitReset.getD now
      let waitTime := max (resetTime - now) 1
      let rest := rwrlAux env (i + 1) budget (now + waitTime)
      (rest.1, waitTime :: rest.2)
    else
      (.noneResult, [])

/-- `GitHubAPIService.request_with_rate_limit` over an attempt-indexed response
environment, starting at epoch time `now`, with the given retry budget
(default 5 in the source). -/
def request_with_rate_limit (env : Nat → HttpResponse) (now : Int)
    (retries : Nat := 5) : ReqResult × List Int :=
  rwrlAux env 0 retries now

/-!
## InsightsOrchestrator: `GitHubInsightsService`

A metric unit, as the orchestrator sees it, is a named computation with a numeric
`order` whose `execute(username)` either returns a dict (modelled as a field list)
or raises. The oracle of upstream responses is threaded inside each concrete
model of each unit below; at the orchestrator level the unit is just its behaviour.
-/

/-- A registered metric unit: class name, `order` attribute, and the behaviour of
`execute(username)` (a dict on success, a raised exception on failure). -/
structure MetricU where
  name : String
  order : Int
  run : String → Except PyErr (List (String × Json))

/-- The execution plan built in `GitHubInsightsService.__init__`:
`sorted([metric() for metric in BaseGitHubMetric.__subclasses__()], key=lambda m: m.order)`.
The Python `sorted` builtin is a stable sort on the key, modelled by `List.mergeSort`. -/
def buildPlan (discovered : List MetricU) : List MetricU :=
  discovered.mergeSort (fun a b => a.order ≤ b.order)

/-- Errors surfacing from `GitHubInsightsService.execute`: a raised
`HTTPException(status_code, detail)` or a propagated Python exception. -/
inductive RunError where
  | httpException : Nat → String → RunError
  | pyError : PyErr → RunError
deriving Repr, DecidableEq

/-- `GitHubInsightsService.__init__` given the discovered subclass list: builds the
sorted plan and the service state. The source has no failure path that depends on
the number of discovered units; the `Except` layer records that construction
raised nothing. -/
def initService (discovered : List MetricU) : Except RunError (List MetricU) :=
  .ok (buildPlan discovered)

/-- `GitHubInsightsService.user_exists`, as a function of the outcome of the
existence-check request (`.error` models `request_with_rate_limit` raising):

```
response = self.github_client_service.request_with_rate_limit(path=path)
if not response or ("message" in response and response["message"] == "Not Found"):
    return False
return True
```
-/
def userExistsFrom (resp : Except PyErr (Option Json)) : Except PyErr Bool :=
  match resp with
  | .error e => .error e
  | .ok r =>
    if !optTruthy r then .ok false
    else
      match r with
      | none => .ok false
      | some j =>
        match pyContains j "message" with
        | .error e => .error e
        | .ok false => .ok true
        | .ok true =>
          match pySubscript j "message" with
          | .error e => .error e
          | .ok v => .ok (!(v == .str "Not Found"))

/-- Python `dict.update`: keys already present keep their position and get the new
value; new keys are appended in the order of the updating dict. -/
def dictUpdate (d e : List (String × Json)) : List (String × Json) :=
  d.map (fun kv =>
    match List.lookup kv.1 e with
    | some v => (kv.1, v)
    | none => kv) ++
  e.filter (fun kv => (List.lookup kv.1 d).isNone)

/-- The per-metric loop of `GitHubInsightsService.execute`: for each unit, its
`execute(username)` is invoked inside `try`; on success its dict is merged into
`result` via `result.update(data)`, on a raised exception the unit is skipped. -/
def runMetrics (metrics : List MetricU) (username : String) : List (String × Json) :=
  metrics.foldl
    (fun acc m =>
      match m.run username with
      | .ok data => dictUpdate acc data
      | .error _ => acc)
    []

/-- `GitHubInsightsService.execute`, instrumented with the list of units whose
`execute` was invoked: returns the aggregate (or the raised error) together with
the names of invoked units. The 404 `HTTPException` is raised before the loop, so
no unit is invoked on that path. -/
def executeInsights (existsResp : Except PyErr (Option Json))
    (metrics : List MetricU) (username : String) :
    Except RunError (List (String × Json)) × List String :=
  match userExistsFrom existsResp with
  | .error e => (.error (.pyError e), [])
  | .ok false =>
    (.error (.httpException 404 ("User " ++ username ++ " not found on GitHub.")), [])
  | .ok true => (.ok (runMetrics metrics username), metrics.map (fun m => m.name))

/-!
## `collections.Counter` (the fragment the metrics use)

A counter is an association list in first-insertion order, as Python dicts are.
-/

/-- `counter[key] += n`: increment in place if present, else append. -/
def counterAdd {α : Type} [BEq α] (c : List (α × Int)) (key : α) (n : Int) :
    List (α × Int) :=
  if c.any (fun kv => kv.1 == key) then
    c.map (fun kv => if kv.1 == key then (kv.1, kv.2 + n) else kv)
  else
    c ++ [(key, n)]

/-- `Counter.update(other)`: add the counts of `other`, appending unseen keys in
the iteration order of `other`. -/
def counterUpdate {α : Type} [BEq α] (c other : List (α × Int)) : List (α × Int) :=
  other.foldl (fun acc kv => counterAdd acc kv.1 kv.2) c

/-- `sum(counter.values())`. -/
def counterSum {α : Type} (c : List (α × Int)) : Int :=
  c.foldl (fun s kv => s + kv.2) 0

/-- `Counter.most_common(n)`: entries sorted by count descending; the sort is
stable, so ties keep insertion order. -/
def mostCommon {α : Type} (c : List (α × Int)) (n : Nat) : List (α × Int) :=
  (c.mergeSort (fun a b => b.2 ≤ a.2)).take n

/-!
## Configuration: `src/config/settings.py`

```
class Settings:
    GITHUB_API_URL: str = os.getenv("GITHUB_API_URL", "https://api.github.com")
    GITHUB_TOKEN: str = os.getenv("GITHUB_TOKEN", "")
    LOG_LEVEL: str = os.getenv("LOG_LEVEL", "INFO")
```

`CoreService.get_setting(key)` is `getattr(self.settings, key, None)`: it yields a
string for the three attributes above and Python `None` for every other key — in
particular for `"MAX_RESULTS_PER_PAGE"` and `"MAX_PAGES"`, which `Settings` does
not define.
-/

/-- The environment-derived settings object. -/
structure Settings where
  GITHUB_API_URL : String := "https://api.github.com"
  GITHUB_TOKEN : String := ""
  LOG_LEVEL : String := "INFO"

/-- `CoreService.get_setting`: attribute lookup with default `None`. -/
def getSetting (s : Settings) (key : String) : Option String :=
  if key == "GITHUB_API_URL" then some s.GITHUB_API_URL
  else if key == "GITHUB_TOKEN" then some s.GITHUB_TOKEN
  else if key == "LOG_LEVEL" then some s.LOG_LEVEL
  else none

/-- Python `page <= value` for an `int` page and a settings attribute, which is
either `None` or a `str`: both comparisons raise
`TypeError` in Python 3 (`int` is not ordered against `NoneType` or `str`). -/
def pyLeIntSetting (_page : Nat) (_v : Option String) : Except PyErr Bool :=
  .error .typeError

/-- Python `n < value` for an `int` length and a settings attribute
(`None` or `str`): raises `TypeError`, as above. -/
def pyLtIntSetting (_n : Int) (_v : Option String) : Except PyErr Bool :=
  .error .typeError

/-!
## `RepositoriesWithMorePRs.execute` (`src/services/metrics/pull_requests.py`)

```
repos_counter = Counter()
page = 1
while page <= self.max_pages:
    path = f"/search/issues?q=author:{username}+type:pr+is:merged&per_page={self.max_results_per_page}&page={page}"
    response = self.github_client_service.request_with_rate_limit(path)
    if not response or "items" not in response:
        break
    for pr in response["items"]:
        repo_url = pr.get("repository_url")
        if repo_url:
            repos_counter[repo_url] += 1
    if len(response["items"]) < self.max_results_per_page:
        break
    page += 1
if not repos_counter:
    return self.format_response("repos_with_more_prs", [])
formatted_repos = [{"repository": repo, "count": count}
                   for repo, count in repos_counter.most_common(3)]
return self.format_response("repos_with_more_prs", formatted_repos)
```

An upstream oracle maps a request path to the outcome of
`request_with_rate_limit` (`none` is Python `None`). `fuel` bounds the unbounded
`while`; the loop condition raises before any iteration under the shipped
`Settings`, so the fuel is never consumed.
-/

/-- The oracle of upstream responses: request path ↦ `request_with_rate_limit` result. -/
def Oracle : Type := String → Option Json

/-- Count the PRs of one result page: `repos_counter[pr.get("repository_url")] += 1`
for each item with a truthy `repository_url`. -/
def prsCountPage (items : List Json) (c : List (Json × Int)) :
    Except PyErr (List (Json × Int)) :=
  match items with
  | [] => .ok c
  | pr :: rest =>
    match pyDictGet pr "repository_url" .null with
    | .error e => .error e
    | .ok repoUrl =>
      if repoUrl.truthy then prsCountPage rest (counterAdd c repoUrl 1)
      else prsCountPage rest c

/-- The paginated `while page <= self.max_pages` loop of
`RepositoriesWithMorePRs.execute`. -/
def prsLoop (u : String) (oracle : Oracle) (maxResultsPerPage maxPages : Option String) :
    Nat → Nat → List (Json × Int) → Except PyErr (List (Json × Int))
  | 0, _, c => .ok c
  | fuel + 1, page, c =>
    match pyLeIntSetting page maxPages with
    | .error e => .error e
    | .ok false => .ok c
    | .ok true =>
      let path := "/search/issues?q=author:" ++ u ++ "+type:pr+is:merged&per_page=" ++
        pyStrOptStr maxResultsPerPage ++ "&page=" ++ toString page
      match oracle path with
      | none => .ok c
      | some response =>
        if !response.truthy then .ok c
        else
          match pyContains response "items" with
          | .error e => .error e
          | .ok false => .ok c
          | .ok true =>
            match pySubscript response "items" with
            | .error e => .error e
            | .ok itemsJson =>
              match pyIter itemsJson with
              | .error e => .error e
              | .ok items =>
                match prsCountPage items c with
                | .error e => .error e
                | .ok c1 =>
                  match pyLen itemsJson with
                  | .error e => .error e
                  | .ok len =>
                    match pyLtIntSetting len maxResultsPerPage with
                    | .error e => .error e
                    | .ok true => .ok c1
                    | .ok false => prsLoop u oracle maxResultsPerPage maxPages fuel (page + 1) c1

/-- `RepositoriesWithMorePRs.execute(username)`, with the pagination attributes
read through `get_setting` from the given `Settings` as in `__init__`. -/
def prsExecute (fuel : Nat) (u : String) (oracle : Oracle) (s : Settings) :
    Except PyErr Json :=
  match prsLoop u oracle (getSetting s "MAX_RESULTS_PER_PAGE") (getSetting s "MAX_PAGES")
      fuel 1 [] with
  | .error e => .error e
  | .ok c =>
    if c.isEmpty then .ok (Json.objL [("repos_with_more_prs", Json.arrL [])])
    else
      .ok (Json.objL [("repos_with_more_prs",
        Json.arrL ((mostCommon c 3).map
          (fun kv => Json.objL [("repository", kv.1), ("count", .num kv.2)])))])

/-!
## `LanguagesMostUsed` (`src/services/metrics/languages.py`)

`MAX_COMMITS_PER_REPO = 10` appears in the commits request path;
`MAX_FILES_PER_COMMIT = 5` truncates the file list of each commit.
-/

/-- The `ext_to_lang` table of `LanguagesMostUsed.infer_language`, in source order. -/
def extToLang : List (String × String) :=
  [(".py", "Python"), (".js", "JavaScript"), (".java", "Java"), (".cpp", "C++"),
   (".c", "C"), (".rs", "Rust"), (".go", "Go"), (".php", "PHP"), (".ts", "TypeScript"),
   (".swift", "Swift"), (".kt", "Kotlin"), (".rb", "Ruby"), (".cs", "C#"),
   (".html", "HTML"), (".css", "CSS")]

/-- `LanguagesMostUsed.infer_language`: first extension match wins;
`filename.endswith` on a non-string raises `AttributeError`. -/
def inferLanguage (filename : Json) : Except PyErr (Option String) :=
  match filename with
  | .str s => .ok ((extToLang.find? (fun p => s.endsWith p.1)).map (fun p => p.2))
  | _ => .error .attributeError

/-- `LanguagesMostUsed.get_commit_files`:

```
commit_data = self.github_client_service.request_with_rate_limit(path)
if "files" not in commit_data:
    return []
return [file["filename"] for file in commit_data["files"]]
```

When the request returns Python `None`, the membership test `"files" not in
commit_data` raises `TypeError` (argument of type NoneType is not iterable). -/
def getCommitFiles (u : String) (repo sha : Json) (o : Oracle) :
    Except PyErr (List Json) :=
  let path := "/repos/" ++ u ++ "/" ++ pyStrOf repo ++ "/commits/" ++ pyStrOf sha
  match o path with
  | none => .error .typeError
  | some commitData =>
    match pyContains commitData "files" with
    | .error e => .error e
    | .ok false => .ok []
    | .ok true =>
      match pySubscript commitData "files" with
      | .error e => .error e
      | .ok filesJson =>
        match pyIter filesJson with
        | .error e => .error e
        | .ok files => files.mapM (fun f => pySubscript f "filename")

/-- The inner `for file in files` loop of `get_commit_languages`:
`language_usage[lang] += 1` for each file whose language is inferred. -/
def langFilesLoop (files : List Json) (c : List (String × Int)) :
    Except PyErr (List (String × Int)) :=
  match files with
  | [] => .ok c
  | f :: rest =>
    match inferLanguage f with
    | .error e => .error e
    | .ok none => langFilesLoop rest c
    | .ok (some lang) => langFilesLoop rest (counterAdd c lang 1)

/-- The `for commit in commits` loop of `get_commit_languages`: fetch each
files of each commit, skip commits with no files, truncate to `MAX_FILES_PER_COMMIT`. -/
def langCommitsLoop (u : String) (repo : Json) (o : Oracle) :
    List Json → List (String × Int) → Except PyErr (List (String × Int))
  | [], c => .ok c
  | commit :: rest, c =>
    match pySubscript commit "sha" with
    | .error e => .error e
    | .ok sha =>
      match getCommitFiles u repo sha o with
      | .error e => .error e
      | .ok files =>
        if files.isEmpty then langCommitsLoop u repo o rest c
        else
          match langFilesLoop (files.take 5) c with
          | .error e => .error e
          | .ok c1 => langCommitsLoop u repo o rest c1

/-- `LanguagesMostUsed.get_commit_languages`. -/
def getCommitLanguages (u : String) (repo : Json) (o : Oracle) :
    Except PyErr (List (String × Int)) :=
  let path := "/repos/" ++ u ++ "/" ++ pyStrOf repo ++ "/commits?author=" ++ u ++
    "&per_page=10"
  match o path with
  | none => .ok []
  | some commits =>
    if !commits.truthy then .ok []
    else
      match pyIter commits with
      | .error e => .error e
      | .ok cs => langCommitsLoop u repo o cs []

/-- `LanguagesMostUsed.get_repositories`: the repo-name list, `[]` when the
response is absent or falsy. -/
def languagesGetRepositories (u : String) (o : Oracle) : Except PyErr (List Json) :=
  match o ("/users/" ++ u ++ "/repos?per_page=50") with
  | none => .ok []
  | some repos =>
    if !repos.truthy then .ok []
    else
      match pyIter repos with
      | .error e => .error e
      | .ok rs => rs.mapM (fun r => pySubscript r "name")

/-- The `for repo in repos` loop of `LanguagesMostUsed.execute`, with the
`sum(language_counter.values()) > 100` early break. -/
def langRepoLoop (u : String) (o : Oracle) :
    List Json → List (String × Int) → Except PyErr (List (String × Int))
  | [], c => .ok c
  | repo :: rest, c =>
    match getCommitLanguages u repo o with
    | .error e => .error e
    | .ok commits =>
      let c1 := counterUpdate c commits
      if counterSum c1 > 100 then .ok c1
      else langRepoLoop u o rest c1

/-- `LanguagesMostUsed.execute(username)`. -/
def languagesExecute (u : String) (o : Oracle) : Except PyErr Json :=
  match languagesGetRepositories u o with
  | .error e => .error e
  | .ok repos =>
    if repos.isEmpty then .ok (Json.objL [("most_used_languages", Json.arrL [])])
    else
      match langRepoLoop u o repos [] with
      | .error e => .error e
      | .ok counter =>
        .ok (Json.objL [("most_used_languages",
          Json.arrL ((mostCommon counter 3).map
            (fun kv => Json.objL [("language", .str kv.1), ("count", .num kv.2)])))])

/-!
## Calendar arithmetic for `ActivityRecent` (`src/services/metrics/activity.py`)

Dates are days since 1970-01-01 (proleptic Gregorian, the Hinnant civil-calendar
algorithms); the ambient clock (`datetime.today()` / `datetime.utcnow()`) is one
such day number, at midnight UTC.
-/

/-- `str.split(sep)` for a single-character separator, on the character list
of the string (all `split` uses in `activity.py` have one-character separators). -/
def splitOnChar (sep : Char) : List Char → List (List Char)
  | [] => [[]]
  | c :: cs =>
    let r := splitOnChar sep cs
    if c == sep then [] :: r
    else
      match r with
      | [] => [[c]]
      | g :: gs => (c :: g) :: gs

/-- `int(s)` for the digit strings the code parses (signs and surrounding
whitespace, which never occur here, are not modelled): `none` models the
`ValueError` raise. -/
def parseNatAux : List Char → Nat → Option Nat
  | [], acc => some acc
  | c :: cs, acc =>
    if c.isDigit then parseNatAux cs (acc * 10 + (c.toNat - 48)) else none

/-- `int(s)`: empty strings and non-digit characters raise. -/
def parseNatChars : List Char → Option Nat
  | [] => none
  | c :: cs => parseNatAux (c :: cs) 0

/-- Lexicographic `≤` on character lists by code point, as Python compares
strings. -/
def charListLe : List Char → List Char → Bool
  | [], _ => true
  | _ :: _, [] => false
  | a :: as, b :: bs =>
    if a.toNat < b.toNat then true
    else if b.toNat < a.toNat then false
    else charListLe as bs

/-- Python string `<=` (code-point lexicographic). -/
def pyStrLe (a b : String) : Bool := charListLe a.toList b.toList

/-- Stable insertion of a string into an ascending list (the earlier element
wins ties), used to model Python `sorted` on strings. -/
def insertStr (x : String) : List String → List String
  | [] => [x]
  | y :: ys => if pyStrLe x y then x :: y :: ys else y :: insertStr x ys

/-- Python `sorted` on a list of strings (ascending lexicographic; equal
strings are indistinguishable, so insertion sort agrees with any stable sort). -/
def sortedStrs : List String → List String
  | [] => []
  | x :: xs => insertStr x (sortedStrs xs)

/-- Day number → (year, month, day). -/
def civilFromDays (z0 : Int) : Int × Nat × Nat :=
  let z := z0 + 719468
  let era : Int := z.fdiv 146097
  let doe : Nat := (z - era * 146097).toNat
  let yoe : Nat := (doe - doe / 1460 + doe / 36524 - doe / 146096) / 365
  let doy : Nat := doe - (365 * yoe + yoe / 4 - yoe / 100)
  let mp : Nat := (5 * doy + 2) / 153
  let d : Nat := doy - (153 * mp + 2) / 5 + 1
  let m : Nat := if mp < 10 then mp + 3 else mp - 9
  ((era * 400 + yoe : Int) + (if m ≤ 2 then 1 else 0), m, d)

/-- (year, month, day) → day number. -/
def daysFromCivil (y : Int) (m d : Nat) : Int :=
  let y1 := y - (if m ≤ 2 then 1 else 0)
  let era : Int := y1.fdiv 400
  let yoe : Nat := (y1 - era * 400).toNat
  let mp : Nat := if m > 2 then m - 3 else m + 9
  let doy : Nat := (153 * mp + 2) / 5 + d - 1
  let doe : Nat := yoe * 365 + yoe / 4 - yoe / 100 + doy
  era * 146097 + (doe : Int) - 719468

/-- Two-digit zero padding, as `%m` / `%d` produce. -/
def pad2 (n : Nat) : String :=
  if n < 10 then "0" ++ toString n else toString n

/-- `strftime("%Y-%m")` (years of the runs considered are four-digit). -/
def ymStr (y : Int) (m : Nat) : String :=
  toString y ++ "-" ++ pad2 m

/-- `strftime("%Y-%m-%d")`. -/
def ymdStr (y : Int) (m d : Nat) : String :=
  toString y ++ "-" ++ pad2 m ++ "-" ++ pad2 d

/-- The six-month window of `ActivityRecent.execute`:
`[(today - timedelta(days=30 * i)).strftime("%Y-%m") for i in range(6)]`. -/
def activityMonths (today : Int) : List String :=
  (List.range 6).map (fun i =>
    let ymd := civilFromDays (today - 30 * i)
    ymStr ymd.1 ymd.2.1)

/-- `ActivityRecent.get_last_day_of_month`:

```
year, month = map(int, month.split("-"))
if month == 12:
    return f"{year}-12-31"
next_month = datetime(year, month + 1, 1)
last_day = next_month - timedelta(days=1)
return last_day.strftime("%Y-%m-%d")
```
-/
def getLastDayOfMonth (month : String) : Except PyErr String :=
  match (splitOnChar (Char.ofNat 45) month.toList).map parseNatChars with
  | [some y, some m] =>
    if m == 12 then .ok (toString y ++ "-12-31")
    else
      let lastDay := civilFromDays (daysFromCivil y (m + 1) 1 - 1)
      .ok (ymdStr lastDay.1 lastDay.2.1 lastDay.2.2)
  | _ => .error .valueError

/-- `datetime.strptime(value, "%Y-%m-%dT%H:%M:%SZ")`, as seconds since epoch.
`strptime` of a non-string raises `TypeError`, of a malformed string
`ValueError` (out-of-range field values are not modelled). -/
def strptimeZ (j : Json) : Except PyErr Int :=
  match j with
  | .str s =>
    match splitOnChar (Char.ofNat 84) s.toList with
    | [datePart, timePart] =>
      if timePart.getLast? == some (Char.ofNat 90) then
        match (splitOnChar (Char.ofNat 45) datePart).map parseNatChars,
            ((splitOnChar (Char.ofNat 58) timePart.dropLast).map parseNatChars) with
        | [some y, some m, some d], [some hh, some mm, some ss] =>
          .ok (daysFromCivil y m d * 86400 + (hh * 3600 + mm * 60 + ss : Nat))
        | _, _ => .error .valueError
      else .error .valueError
    | _ => .error .valueError
  | _ => .error .typeError

/-!
## `ActivityRecent` (`src/services/metrics/activity.py`)
-/

/-- The per-month entry of the `contributions` dict. -/
structure MonthRec where
  pull_requests : Json
  issues : Json
  commits : Int
deriving Repr, DecidableEq

/-- Key order of a dict comprehension over a list of keys: first occurrence wins,
later duplicates collapse. -/
def dictKeys (ms : List String) : List String :=
  ms.foldl (fun acc m => if acc.contains m then acc else acc ++ [m]) []

/-- `ActivityRecent.get_pr_count`: the Search API `total_count`, `0` when the
response is absent or falsy (`data.get("total_count", 0) if data else 0`). -/
def getPrCount (u : String) (month : String) (o : Oracle) : Except PyErr Json :=
  match getLastDayOfMonth month with
  | .error e => .error e
  | .ok endDate =>
    let path := "/search/issues?q=author:" ++ u ++ "+type:pr+created:" ++
      (month ++ "-01") ++ ".." ++ endDate
    match o path with
    | none => .ok (.num 0)
    | some data =>
      if !data.truthy then .ok (.num 0)
      else
        match pyDictGet data "total_count" (.num 0) with
        | .error e => .error e
        | .ok v => .ok v

/-- `ActivityRecent.get_issue_count`: as `get_pr_count` with `type:issue`. -/
def getIssueCount (u : String) (month : String) (o : Oracle) : Except PyErr Json :=
  match getLastDayOfMonth month with
  | .error e => .error e
  | .ok endDate =>
    let path := "/search/issues?q=author:" ++ u ++ "+type:issue+created:" ++
      (month ++ "-01") ++ ".." ++ endDate
    match o path with
    | none => .ok (.num 0)
    | some data =>
      if !data.truthy then .ok (.num 0)
      else
        match pyDictGet data "total_count" (.num 0) with
        | .error e => .error e
        | .ok v => .ok v

/-- `ActivityRecent.get_commit_count`: `len(commits) if commits else 0`. -/
def getCommitCount (u : String) (repo : String) (month : String) (o : Oracle) :
    Except PyErr Int :=
  match getLastDayOfMonth month with
  | .error e => .error e
  | .ok endDay =>
    let path := "/repos/" ++ u ++ "/" ++ repo ++ "/commits?author=" ++ u ++
      "&since=" ++ (month ++ "-01T00:00:00Z") ++ "&until=" ++ (endDay ++ "T23:59:59Z")
    match o path with
    | none => .ok 0
    | some commits =>
      if !commits.truthy then .ok 0
      else
        match pyLen commits with
        | .error e => .error e
        | .ok n => .ok n

/-- The filtering list comprehension of `ActivityRecent.get_repositories`:
keep `repo["name"]` when `"pushed_at" in repo` and its parsed timestamp is at
least the cutoff (`utcnow() - timedelta(days=180)`, in epoch seconds). -/
def activityRepoFilter (cutoff : Int) : List Json → Except PyErr (List Json)
  | [] => .ok []
  | repo :: rest =>
    match pyContains repo "pushed_at" with
    | .error e => .error e
    | .ok false => activityRepoFilter cutoff rest
    | .ok true =>
      match pySubscript repo "pushed_at" with
      | .error e => .error e
      | .ok pa =>
        match strptimeZ pa with
        | .error e => .error e
        | .ok t =>
          if t ≥ cutoff then
            match pySubscript repo "name" with
            | .error e => .error e
            | .ok name =>
              match activityRepoFilter cutoff rest with
              | .error e => .error e
              | .ok names => .ok (name :: names)
          else activityRepoFilter cutoff rest

/-- `ActivityRecent.get_repositories(username)`: repositories pushed within the
last 180 days of the ambient day `today`. -/
def activityGetRepositories (u : String) (today : Int) (o : Oracle) :
    Except PyErr (List Json) :=
  match o ("/users/" ++ u ++ "/repos?per_page=100") with
  | none => .ok []
  | some repos =>
    if !repos.truthy then .ok []
    else
      match pyIter repos with
      | .error e => .error e
      | .ok rs => activityRepoFilter ((today - 180) * 86400) rs

/-- `contributions[month]["pull_requests"] = pr_count` followed by
`contributions[month]["issues"] = issue_count`. -/
def setPrIssues (c : List (String × MonthRec)) (month : String) (pr iss : Json) :
    List (String × MonthRec) :=
  c.map (fun kv =>
    if kv.1 == month then (kv.1, { kv.2 with pull_requests := pr, issues := iss })
    else kv)

/-- `contributions[month]["commits"] += commit_count`. -/
def addCommits (c : List (String × MonthRec)) (month : String) (n : Int) :
    List (String × MonthRec) :=
  c.map (fun kv =>
    if kv.1 == month then (kv.1, { kv.2 with commits := kv.2.commits + n })
    else kv)

/-- The first `for month in months` loop of `ActivityRecent.execute`
(PR and issue counts). -/
def activityPrIssueLoop (u : String) (o : Oracle) :
    List String → List (String × MonthRec) → Except PyErr (List (String × MonthRec))
  | [], c => .ok c
  | month :: rest, c =>
    match getPrCount u month o with
    | .error e => .error e
    | .ok pr =>
      match getIssueCount u month o with
      | .error e => .error e
      | .ok iss => activityPrIssueLoop u o rest (setPrIssues c month pr iss)

/-- The inner `for month in months` loop of the commit pass. -/
def activityCommitMonthLoop (u : String) (repo : String) (o : Oracle) :
    List String → List (String × MonthRec) → Except PyErr (List (String × MonthRec))
  | [], c => .ok c
  | month :: rest, c =>
    match getCommitCount u repo month o with
    | .error e => .error e
    | .ok n => activityCommitMonthLoop u repo o rest (addCommits c month n)

/-- The outer `for repo in repos` loop of the commit pass. -/
def activityCommitLoop (u : String) (o : Oracle) (months : List String) :
    List Json → List (String × MonthRec) → Except PyErr (List (String × MonthRec))
  | [], c => .ok c
  | repo :: rest, c =>
    match activityCommitMonthLoop u (pyStrOf repo) o months c with
    | .error e => .error e
    | .ok c1 => activityCommitLoop u o months rest c1

/-- `ActivityRecent.execute(username)` at ambient day `today`:

```
months = [(today - timedelta(days=30 * i)).strftime("%Y-%m") for i in range(6)]
contributions = {month: {"pull_requests": 0, "issues": 0, "commits": 0}
                 for month in sorted(months)}
for month in months: ...            # PR and issue counts
repos = self.get_repositories(username)
if not repos:
    return self.format_response("monthly_contributions", [])
for repo in repos:
    for month in months: ...        # commit counts
contributions_list = [{"month": month, **data} for month, data in contributions.items()]
return self.format_response("monthly_contributions", contributions_list)
```
-/
def activityExecute (u : String) (today : Int) (o : Oracle) : Except PyErr Json :=
  let months := activityMonths today
  let init := (dictKeys (sortedStrs months)).map
    (fun m => (m, ({ pull_requests := .num 0, issues := .num 0, commits := 0 } : MonthRec)))
  match activityPrIssueLoop u o months init with
  | .error e => .error e
  | .ok contribs =>
    match activityGetRepositories u today o with
    | .error e => .error e
    | .ok repos =>
      if repos.isEmpty then .ok (Json.objL [("monthly_contributions", Json.arrL [])])
      else
        match activityCommitLoop u o months repos contribs with
        | .error e => .error e
        | .ok contribs2 =>
          .ok (Json.objL [("monthly_contributions",
            Json.arrL (contribs2.map (fun kv =>
              Json.objL [("month", .str kv.1), ("pull_requests", kv.2.pull_requests),
                ("issues", kv.2.issues), ("commits", .num kv.2.commits)])))])

/-- Decidable equality for request/metric outcomes. -/
instance {ε α : Type} [DecidableEq ε] [DecidableEq α] : DecidableEq (Except ε α) :=
  fun a b =>
    match a, b with
    | .ok x, .ok y =>
      if h : x = y then .isTrue (by rw [h]) else .isFalse (by simp [h])
    | .error x, .error y =>
      if h : x = y then .isTrue (by rw [h]) else .isFalse (by simp [h])
    | .ok _, .error _ => .isFalse (by simp)
    | .error _, .ok _ => .isFalse (by simp)

/-- Upstream responses for the `LanguagesMostUsed` failure scenario: one
repository, one commit, and an absent commit-detail response. -/
def langNoDataOracle : Oracle := fun p =>
  if p == "/users/alice/repos?per_page=50" then
    some (Json.arrL [Json.objL [("name", Json.str "r")]])
  else if p == "/repos/alice/r/commits?author=alice&per_page=10" then
    some (Json.arrL [Json.objL [("sha", Json.str "abc")]])
  else none

/-- Upstream responses for the `ActivityRecent` determinism scenarios: one
recently pushed repository, every other request absent. -/
def activityOracle : Oracle := fun p =>
  if p == "/users/alice/repos?per_page=100" then
    some (Json.arrL [Json.objL [("name", Json.str "r"),
      ("pushed_at", Json.str "2026-09-01T00:00:00Z")]])
  else none

/-!
# Theorems

Shared helper lemmas first, then one theorem per claim (with a witness where the
theorem has hypotheses, and a counterexample where the claim fails).
-/

theorem rwrlAux_congr (env env2 : Nat → HttpResponse) (b : Nat) :
    ∀ (i : Nat) (now : Int), (∀ j, j < b → env (i + j) = env2 (i + j)) →
      rwrlAux env i b now = rwrlAux env2 i b now := by
  induction b with
  | zero => intro i now _; rfl
  | succ b ih =>
    intro i now h
    have h0 : env i = env2 i := by simpa using h 0 (by omega)
    have hrec : ∀ now2 : Int, rwrlAux env (i + 1) b now2 = rwrlAux env2 (i + 1) b now2 := by
      intro now2
      apply ih
      intro j hj
      have hh := h (j + 1) (by omega)
      have e : i + (j + 1) = i + 1 + j := by omega
      rwa [e] at hh
    simp only [rwrlAux, h0, hrec]

theorem rwrlAux_exhausted_iff (env : Nat → HttpResponse) (b : Nat) :
    ∀ (i : Nat) (now : Int),
      ((rwrlAux env i b now).1 = .exhausted ↔
        ∀ j, j < b → isRateLimit (env (i + j)) = true) := by
  induction b with
  | zero =>
    intro i now
    simp [rwrlAux]
  | succ b ih =>
    intro i now
    by_cases h200 : ((env i).status == 200) = true
    · constructor
      · intro hc
        simp [rwrlAux, h200] at hc
      · intro hall
        exfalso
        have h0 := hall 0 (by omega)
        have hs : (env i).status = 200 := by simpa using h200
        simp [isRateLimit, hs] at h0
    · by_cases hrl : ((env i).status == 403 && (env i).hasRateLimitRemaining) = true
      · have hunf : (rwrlAux env i (b + 1) now).1 =
            (rwrlAux env (i + 1) b
              (now + max ((env i).rateLimitReset.getD now - now) 1)).1 := by
          simp [rwrlAux, h200, hrl]
        rw [hunf, ih (i + 1)]
        constructor
        · intro hrest j hj
          cases j with
          | zero => simpa [isRateLimit] using hrl
          | succ j2 =>
            have := hrest j2 (by omega)
            have e : i + 1 + j2 = i + (j2 + 1) := by omega
            rwa [e] at this
        · intro hall j hj
          have := hall (j + 1) (by omega)
          have e : i + (j + 1) = i + 1 + j := by omega
          rwa [e] at this
      · constructor
        · intro hc
          simp [rwrlAux, h200, hrl] at hc
        · intro hall
          exfalso
          have h0 := hall 0 (by omega)
          simp only [Nat.add_zero, isRateLimit] at h0
          exact absurd h0 (by simpa using hrl)

theorem rwrlAux_settles (env : Nat → HttpResponse) (b : Nat) :
    ∀ (i k : Nat) (now : Int), k < b →
      (∀ j, j < k → isRateLimit (env (i + j)) = true) →
      isRateLimit (env (i + k)) = false →
      (rwrlAux env i b now).1 =
        (if (env (i + k)).status == 200 then .success (env (i + k)).body
         else .noneResult) := by
  induction b with
  | zero =>
    intro i k now hk
    omega
  | succ b ih =>
    intro i k now hk hpre hset
    cases k with
    | zero =>
      simp only [Nat.add_zero] at hset ⊢
      by_cases h200 : ((env i).status == 200) = true
      · simp [rwrlAux, h200]
      · have hrl : ((env i).status == 403 && (env i).hasRateLimitRemaining) = false := by
          simpa [isRateLimit] using hset
        simp [rwrlAux, h200, hrl]
    | succ k2 =>
      have h0 : isRateLimit (env i) = true := by simpa using hpre 0 (by omega)
      have hs403 : (env i).status = 403 := by
        simp only [isRateLimit, Bool.and_eq_true, beq_iff_eq] at h0
        exact h0.1
      have h200 : ((env i).status == 200) = false := by simp [hs403]
      have hrl : ((env i).status == 403 && (env i).hasRateLimitRemaining) = true := by
        simpa [isRateLimit] using h0
      have hunf : (rwrlAux env i (b + 1) now).1 =
          (rwrlAux env (i + 1) b
            (now + max ((env i).rateLimitReset.getD now - now) 1)).1 := by
        simp [rwrlAux, h200, hrl]
      rw [hunf]
      have hpre2 : ∀ j, j < k2 → isRateLimit (env (i + 1 + j)) = true := by
        intro j hj
        have := hpre (j + 1) (by omega)
        have e : i + (j + 1) = i + 1 + j := by omega
        rwa [e] at this
      have hset2 : isRateLimit (env (i + 1 + k2)) = false := by
        have e : i + (k2 + 1) = i + 1 + k2 := by omega
        rwa [e] at hset
      have := ih (i + 1) k2
        (now + max ((env i).rateLimitReset.getD now - now) 1) (by omega) hpre2 hset2
      have e : i + 1 + k2 = i + (k2 + 1) := by omega
      rw [e] at this
      exact this

/-- C2: `request_with_rate_limit` consults at most `retries` attempts (the result
only depends on the first `retries` responses); it raises the exhaustion
exception iff every one of the `retries` attempts was a rate-limit response; and
when the first non-rate-limit response occurs at attempt `k < retries`, the call
returns the parsed body of that response if its status is 200 and Python `None`
otherwise — so nothing but exhaustion propagates as an exception. -/
theorem client_retry_budget_and_outcomes :
    (∀ (env env2 : Nat → HttpResponse) (now : Int) (retries : Nat),
      (∀ i, i < retries → env i = env2 i) →
      request_with_rate_limit env now retries = request_with_rate_limit env2 now retries) ∧
    (∀ (env : Nat → HttpResponse) (now : Int) (retries : Nat),
      ((request_with_rate_limit env now retries).1 = .exhausted ↔
        ∀ i, i < retries → isRateLimit (env i) = true)) ∧
    (∀ (env : Nat → HttpResponse) (now : Int) (retries k : Nat),
      k < retries →
      (∀ i, i < k → isRateLimit (env i) = true) →
      isRateLimit (env k) = false →
      (request_with_rate_limit env now retries).1 =
        (if (env k).status == 200 then .success (env k).body else .noneResult)) := by
  refine ⟨?_, ?_, ?_⟩
  · intro env env2 now retries h
    exact rwrlAux_congr env env2 retries 0 now (by simpa using h)
  · intro env now retries
    have := rwrlAux_exhausted_iff env retries 0 now
    simpa using this
  · intro env now retries k hk hpre hset
    have := rwrlAux_settles env retries 0 k now hk (by simpa using hpre) (by simpa using hset)
    simpa using this

/-- C2 witness: a concrete all-rate-limited run exhausts, and a concrete
immediate 500 returns `None`. -/
theorem client_retry_budget_and_outcomes_witness :
    (request_with_rate_limit (fun _ => ⟨403, true, some 10, Json.null⟩) 0 5).1 =
      .exhausted ∧
    (request_with_rate_limit (fun _ => ⟨500, false, none, Json.null⟩) 0 5).1 =
      .noneResult := by
  constructor
  · exact (client_retry_budget_and_outcomes.2.1
      (fun _ => ⟨403, true, some 10, Json.null⟩) 0 5).mpr (fun i _ => rfl)
  · have h := client_retry_budget_and_outcomes.2.2
      (fun _ => ⟨500, false, none, Json.null⟩) 0 5 0 (by omega)
      (fun i hi => absurd hi (by omega)) rfl
    simpa using h

/-- C3: a 403 attempt carrying the remaining-quota header computes
`wait = max(reset - now, 1)` (so `1` when the reset header is absent), sleeps
exactly `wait`, and continues with the remaining budget at time `now + wait` —
it neither returns `None` nor raises on its own. -/
theorem client_rate_limit_wait (env : Nat → HttpResponse) (now : Int) (b i : Nat)
    (h1 : (env i).status = 403) (h2 : (env i).hasRateLimitRemaining = true) :
    rwrlAux env i (b + 1) now =
      ((rwrlAux env (i + 1) b
          (now + max ((env i).rateLimitReset.getD now - now) 1)).1,
        max ((env i).rateLimitReset.getD now - now) 1 ::
          (rwrlAux env (i + 1) b
            (now + max ((env i).rateLimitReset.getD now - now) 1)).2) ∧
    ((env i).rateLimitReset = none →
      max ((env i).rateLimitReset.getD now - now) 1 = 1) := by
  constructor
  · have h200 : ((env i).status == 200) = false := by simp [h1]
    have hrl : ((env i).status == 403 && (env i).hasRateLimitRemaining) = true := by
      simp [h1, h2]
    simp [rwrlAux, h200, hrl]
  · intro hnone
    simp [hnone]

/-- C3 witness: at a concrete 403 rate-limited response with reset instant 100
and `now = 0`, the call sleeps 100 and retries with one fewer attempt. -/
theorem client_rate_limit_wait_witness :
    rwrlAux (fun _ => ⟨403, true, some 100, Json.null⟩) 0 2 0 =
      ((rwrlAux (fun _ => ⟨403, true, some 100, Json.null⟩) 1 1 100).1,
        100 :: (rwrlAux (fun _ => ⟨403, true, some 100, Json.null⟩) 1 1 100).2) := by
  have h := (client_rate_limit_wait
    (fun _ => ⟨403, true, some 100, Json.null⟩) 0 1 0 rfl rfl).1
  norm_num at h
  exact h

theorem metricLe_trans : ∀ (a b c : MetricU),
    (fun a b : MetricU => decide (a.order ≤ b.order)) a b →
    (fun a b : MetricU => decide (a.order ≤ b.order)) b c →
    (fun a b : MetricU => decide (a.order ≤ b.order)) a c := by
  intro a b c hab hbc
  simp only [decide_eq_true_eq] at hab hbc ⊢
  omega

theorem metricLe_total : ∀ (a b : MetricU),
    (fun a b : MetricU => decide (a.order ≤ b.order)) a b ||
    (fun a b : MetricU => decide (a.order ≤ b.order)) b a := by
  intro a b
  by_cases h : a.order ≤ b.order
  · simp [h]
  · simp [h]
    omega

theorem buildPlan_perm (ms : List MetricU) : (buildPlan ms).Perm ms :=
  List.mergeSort_perm ms _

theorem buildPlan_sorted (ms : List MetricU) :
    (buildPlan ms).Pairwise (fun a b => a.order ≤ b.order) := by
  have h := List.sorted_mergeSort metricLe_trans metricLe_total ms
  exact h.imp (fun hab => by simpa using hab)

theorem buildPlan_filter (ms : List MetricU) (p : Int) :
    (buildPlan ms).filter (fun m => m.order == p) =
      ms.filter (fun m => m.order == p) := by
  have hmem : ∀ m ∈ ms.filter (fun m => m.order == p), m.order = p := by
    intro m hm
    have := List.of_mem_filter hm
    simpa using this
  have hpair : (ms.filter (fun m => m.order == p)).Pairwise
      (fun a b : MetricU => decide (a.order ≤ b.order)) := by
    apply List.pairwise_of_forall_mem_list
    intro a ha b hb
    simp [hmem a ha, hmem b hb]
  have hsub : List.Sublist (ms.filter (fun m => m.order == p)) (buildPlan ms) :=
    List.sublist_mergeSort metricLe_trans metricLe_total hpair (List.filter_sublist ms)
  have hperm : List.Perm ((buildPlan ms).filter (fun m => m.order == p))
      (ms.filter (fun m => m.order == p)) :=
    (List.mergeSort_perm ms _).filter _
  have hself : (ms.filter (fun m => m.order == p)).filter (fun m => m.order == p) =
      ms.filter (fun m => m.order == p) :=
    List.filter_eq_self.mpr (fun m hm => by simp [hmem m hm])
  have hsub2 : List.Sublist (ms.filter (fun m => m.order == p))
      ((buildPlan ms).filter (fun m => m.order == p)) := by
    have := hsub.filter (fun m => m.order == p)
    rwa [hself] at this
  exact (hsub2.eq_of_length hperm.length_eq.symm).symm

/-- C5: the execution plan is the discovered units sorted by ascending `order`,
and the sort is stable: the plan is ordered, is a permutation of the discovered
list, and for every priority value the units of that priority appear in exactly
their discovery order. -/
theorem plan_is_stable_priority_sort (ms : List MetricU) :
    (buildPlan ms).Pairwise (fun a b => a.order ≤ b.order) ∧
    (buildPlan ms).Perm ms ∧
    (∀ p : Int, (buildPlan ms).filter (fun m => m.order == p) =
      ms.filter (fun m => m.order == p)) :=
  ⟨buildPlan_sorted ms, buildPlan_perm ms, fun p => buildPlan_filter ms p⟩

/-- C7 counterexample: with zero discovered units, `__init__` succeeds (with an
empty plan) — there is no loud failure at startup, contrary to the claim. -/
theorem zero_units_construction_succeeds : initService [] = .ok [] := by
  simp [initService, buildPlan]

/-- C7 amended: orchestrator construction never fails on account of the
discovered count — for every discovered list (including the empty one) it
succeeds and yields the priority-ordered plan. -/
theorem construction_never_fails_on_count (ms : List MetricU) :
    ∃ plan, initService ms = .ok plan ∧ plan.Perm ms ∧
      plan.Pairwise (fun a b => a.order ≤ b.order) :=
  ⟨buildPlan ms, rfl, buildPlan_perm ms, buildPlan_sorted ms⟩

theorem userExistsFrom_none : userExistsFrom (.ok none) = .ok false := rfl

theorem userExistsFrom_marker (fs : JsonObj)
    (hlk : List.lookup "message" fs.toList = some (.str "Not Found")) :
    userExistsFrom (.ok (some (.obj fs))) = .ok false := by
  cases fs with
  | nil => simp [JsonObj.toList] at hlk
  | cons k v rest =>
    simp only [JsonObj.toList] at hlk
    simp [userExistsFrom, optTruthy, Json.truthy, pyContains, pySubscript,
      JsonObj.toList, hlk]

/-- C1: whenever the response of the existence check is absent or carries the
`"message": "Not Found"` marker, `execute` raises the 404 `HTTPException`
(`SubjectNotFound`) and invokes no metric unit; and the per-metric loop runs
only when `user_exists` returns `True`. -/
theorem notFound_aborts_before_any_metric :
    (∀ (r : Except PyErr (Option Json)) (metrics : List MetricU) (u : String),
      (r = .ok none ∨
        ∃ fs : JsonObj, r = .ok (some (.obj fs)) ∧
          List.lookup "message" fs.toList = some (.str "Not Found")) →
      executeInsights r metrics u =
        (.error (.httpException 404 ("User " ++ u ++ " not found on GitHub.")), [])) ∧
    (∀ (r : Except PyErr (Option Json)) (metrics : List MetricU) (u : String),
      userExistsFrom r ≠ .ok true → (executeInsights r metrics u).2 = []) := by
  constructor
  · intro r metrics u h
    have hex : userExistsFrom r = .ok false := by
      rcases h with h | ⟨fs, hf, hlk⟩
      · rw [h]
        exact userExistsFrom_none
      · rw [hf]
        exact userExistsFrom_marker fs hlk
    simp [executeInsights, hex]
  · intro r metrics u hne
    cases heq : userExistsFrom r with
    | error e => simp [executeInsights, heq]
    | ok b =>
      cases b with
      | false => simp [executeInsights, heq]
      | true => exact absurd heq hne

/-- C1 witness: the concrete absent response and the concrete marker response
both produce the 404 with no unit invoked. -/
theorem notFound_aborts_before_any_metric_witness :
    executeInsights (.ok none) [] "ghost" =
      (.error (.httpException 404 "User ghost not found on GitHub."), []) ∧
    executeInsights
        (.ok (some (Json.objL [("message", Json.str "Not Found")]))) [] "ghost" =
      (.error (.httpException 404 "User ghost not found on GitHub."), []) ∧
    (executeInsights (.error .typeError) [] "ghost").2 = [] := by
  refine ⟨?_, ?_, ?_⟩
  · exact notFound_aborts_before_any_metric.1 (.ok none) [] "ghost" (Or.inl rfl)
  · exact notFound_aborts_before_any_metric.1
      (.ok (some (Json.objL [("message", Json.str "Not Found")]))) [] "ghost"
      (Or.inr ⟨_, rfl, rfl⟩)
  · exact notFound_aborts_before_any_metric.2 (.error .typeError) [] "ghost"
      (by decide)

/-- C10: `user_exists` on a dict response returns `True` exactly when the dict
is non-empty and does not map `"message"` to `"Not Found"`; an absent response
gives `False`; consequently a 200 whose body is an empty object or an empty
array is classified as non-existent and `execute` raises the 404. -/
theorem user_exists_truthiness_and_empty_body_404 :
    (∀ fs : JsonObj,
      userExistsFrom (.ok (some (.obj fs))) =
        .ok (!fs.toList.isEmpty &&
          !(List.lookup "message" fs.toList == some (Json.str "Not Found")))) ∧
    userExistsFrom (.ok none) = .ok false ∧
    (∀ (metrics : List MetricU) (u : String),
      executeInsights (.ok (some (Json.objL []))) metrics u =
        (.error (.httpException 404 ("User " ++ u ++ " not found on GitHub.")), [])) ∧
    (∀ (metrics : List MetricU) (u : String),
      executeInsights (.ok (some (Json.arrL []))) metrics u =
        (.error (.httpException 404 ("User " ++ u ++ " not found on GitHub.")), [])) := by
  refine ⟨?_, rfl, ?_, ?_⟩
  · intro fs
    cases fs with
    | nil => rfl
    | cons k v rest =>
      cases hlk : List.lookup "message" ((JsonObj.cons k v rest).toList) with
      | none =>
        simp only [JsonObj.toList] at hlk
        simp [userExistsFrom, optTruthy, Json.truthy, pyContains, pySubscript,
          JsonObj.toList, hlk]
      | some w =>
        simp only [JsonObj.toList] at hlk
        simp [userExistsFrom, optTruthy, Json.truthy, pyContains, pySubscript,
          JsonObj.toList, hlk]
  · intro metrics u
    have hex : userExistsFrom (.ok (some (Json.objL []))) = .ok false := rfl
    simp [executeInsights, hex]
  · intro metrics u
    have hex : userExistsFrom (.ok (some (Json.arrL []))) = .ok false := rfl
    simp [executeInsights, hex]

theorem lookup_none_iff_keys (k : String) (d : List (String × Json)) :
    List.lookup k d = none ↔ k ∉ d.map Prod.fst := by
  induction d with
  | nil => simp
  | cons kv rest ih =>
    obtain ⟨a, b⟩ := kv
    by_cases h : k = a
    · subst h
      simp [List.lookup]
    · have hba : (k == a) = false := beq_eq_false_iff_ne.mpr h
      simp [List.lookup, hba, ih, h]

theorem mem_keys_dictUpdate (k : String) (d e : List (String × Json)) :
    k ∈ (dictUpdate d e).map Prod.fst ↔
      k ∈ d.map Prod.fst ∨ k ∈ e.map Prod.fst := by
  have hd : (d.map (fun kv : String × Json =>
      match List.lookup kv.1 e with
      | some v => (kv.1, v)
      | none => kv)).map Prod.fst = d.map Prod.fst := by
    rw [List.map_map]
    apply List.map_congr_left
    intro kv _
    simp only [Function.comp_apply]
    cases h : List.lookup kv.1 e <;> simp [h]
  simp only [dictUpdate, List.map_append, List.mem_append, hd]
  constructor
  · rintro (h | h)
    · exact Or.inl h
    · right
      obtain ⟨kv, hkv, hk⟩ := List.mem_map.mp h
      exact List.mem_map.mpr ⟨kv, (List.mem_filter.mp hkv).1, hk⟩
  · rintro (h | h)
    · exact Or.inl h
    · by_cases hmem : k ∈ d.map Prod.fst
      · exact Or.inl hmem
      · right
        obtain ⟨kv, hkv, hk⟩ := List.mem_map.mp h
        refine List.mem_map.mpr ⟨kv, List.mem_filter.mpr ⟨hkv, ?_⟩, hk⟩
        have hln : List.lookup kv.1 d = none := by
          rw [hk]
          exact (lookup_none_iff_keys k d).mpr hmem
        simp [hln]

theorem runMetrics_keys_aux (u k : String) :
    ∀ (metrics : List MetricU) (acc : List (String × Json)),
      (k ∈ (metrics.foldl (fun acc m =>
          match m.run u with
          | .ok data => dictUpdate acc data
          | .error _ => acc) acc).map Prod.fst ↔
        k ∈ acc.map Prod.fst ∨
          ∃ m ∈ metrics, ∃ d, m.run u = .ok d ∧ k ∈ d.map Prod.fst) := by
  intro metrics
  induction metrics with
  | nil =>
    intro acc
    simp
  | cons m rest ih =>
    intro acc
    simp only [List.foldl_cons]
    cases hm : m.run u with
    | ok data =>
      simp only [hm]
      rw [ih (dictUpdate acc data), mem_keys_dictUpdate]
      constructor
      · rintro ((h | h) | h)
        · exact Or.inl h
        · exact Or.inr ⟨m, by simp, data, hm, h⟩
        · obtain ⟨m2, hm2, d2, hd2, hk2⟩ := h
          exact Or.inr ⟨m2, by simp [hm2], d2, hd2, hk2⟩
      · rintro (h | ⟨m2, hm2, d2, hd2, hk2⟩)
        · exact Or.inl (Or.inl h)
        · rcases List.mem_cons.mp hm2 with rfl | hm2r
          · rw [hm] at hd2
            cases hd2
            exact Or.inl (Or.inr hk2)
          · exact Or.inr ⟨m2, hm2r, d2, hd2, hk2⟩
    | error e =>
      simp only [hm]
      rw [ih acc]
      constructor
      · rintro (h | ⟨m2, hm2, d2, hd2, hk2⟩)
        · exact Or.inl h
        · exact Or.inr ⟨m2, by simp [hm2], d2, hd2, hk2⟩
      · rintro (h | ⟨m2, hm2, d2, hd2, hk2⟩)
        · exact Or.inl h
        · rcases List.mem_cons.mp hm2 with rfl | hm2r
          · rw [hm] at hd2
            cases hd2
          · exact Or.inr ⟨m2, hm2r, d2, hd2, hk2⟩

theorem runMetrics_filterMap (u : String) :
    ∀ (metrics : List MetricU) (acc : List (String × Json)),
      metrics.foldl (fun acc m =>
        match m.run u with
        | .ok data => dictUpdate acc data
        | .error _ => acc) acc =
      (metrics.filterMap (fun m => (m.run u).toOption)).foldl dictUpdate acc := by
  intro metrics
  induction metrics with
  | nil =>
    intro acc
    rfl
  | cons m rest ih =>
    intro acc
    cases hm : m.run u with
    | ok data => simp [hm, Except.toOption, ih]
    | error e => simp [hm, Except.toOption, ih]

/-- C4: once the existence check passes, every unit is invoked; a unit that
raises is skipped and the loop continues, so the aggregate is the
`dict.update` fold (key union, last-writer-wins, in plan order) of exactly the
dicts of the units that returned normally, and a key is present in the
aggregate iff some non-raising unit produced it. In the three-unit scenario
with priorities 1, 2, 3 where unit 2 raises, the aggregate holds exactly the
keys of units 1 and 3. -/
theorem per_unit_isolation_merge :
    (∀ (r : Except PyErr (Option Json)) (metrics : List MetricU) (u : String),
      userExistsFrom r = .ok true →
      executeInsights r metrics u =
        (.ok ((metrics.filterMap (fun m => (m.run u).toOption)).foldl dictUpdate []),
          metrics.map (fun m => m.name))) ∧
    (∀ (metrics : List MetricU) (u k : String),
      k ∈ (runMetrics metrics u).map Prod.fst ↔
        ∃ m ∈ metrics, ∃ d, m.run u = .ok d ∧ k ∈ d.map Prod.fst) ∧
    (buildPlan
        [⟨"Unit1", 1, fun _ => .ok [("k1", Json.num 1)]⟩,
         ⟨"Unit2", 2, fun _ => .error .typeError⟩,
         ⟨"Unit3", 3, fun _ => .ok [("k3", Json.num 3)]⟩] =
      [⟨"Unit1", 1, fun _ => .ok [("k1", Json.num 1)]⟩,
       ⟨"Unit2", 2, fun _ => .error .typeError⟩,
       ⟨"Unit3", 3, fun _ => .ok [("k3", Json.num 3)]⟩]) ∧
    (executeInsights (.ok (some (Json.objL [("login", Json.str "alice")])))
        [⟨"Unit1", 1, fun _ => .ok [("k1", Json.num 1)]⟩,
         ⟨"Unit2", 2, fun _ => .error .typeError⟩,
         ⟨"Unit3", 3, fun _ => .ok [("k3", Json.num 3)]⟩] "alice") =
      (.ok [("k1", Json.num 1), ("k3", Json.num 3)],
        ["Unit1", "Unit2", "Unit3"]) := by
  refine ⟨?_, ?_, ?_, ?_⟩
  · intro r metrics u hex
    simp only [executeInsights, hex, runMetrics]
    rw [runMetrics_filterMap u metrics []]
  · intro metrics u k
    have := runMetrics_keys_aux u k metrics []
    simpa [runMetrics] using this
  · apply List.mergeSort_of_sorted
    simp [List.pairwise_cons]
  · rfl

/-- C4 witness: a concrete passing existence check runs the loop over an empty
plan and returns the empty aggregate with no invocations missing. -/
theorem per_unit_isolation_merge_witness :
    executeInsights (.ok (some (Json.objL [("login", Json.str "alice")]))) []
        "alice" = (.ok [], []) := by
  exact per_unit_isolation_merge.1
    (.ok (some (Json.objL [("login", Json.str "alice")]))) [] "alice" rfl

/-- C8: under the shipped configuration, `Settings` defines neither
`MAX_RESULTS_PER_PAGE` nor `MAX_PAGES`, so `get_setting` yields `None` for both
and the loop condition `page <= self.max_pages` raises `TypeError` before the
first page is ever requested: `RepositoriesWithMorePRs.execute` always raises,
for every subject and every upstream behaviour. -/
theorem prs_execute_always_type_errors (fuel : Nat) (u : String) (o : Oracle)
    (s : Settings) :
    prsExecute (fuel + 1) u o s = .error .typeError := by
  simp [prsExecute, prsLoop, pyLeIntSetting]

/-- C6: with one repository, one commit, and an absent commit-detail response,
`LanguagesMostUsed.execute` raises `TypeError` (the membership test
`"files" not in commit_data` runs on Python `None` in `get_commit_files`)
instead of returning its key with an empty payload. -/
theorem languages_raises_on_absent_commit_detail :
    languagesExecute "alice" langNoDataOracle = .error .typeError := by
  rfl

/-- C9 counterexample: `ActivityRecent` reads the ambient clock
(`datetime.today()` / `datetime.utcnow()`), so two runs with the same subject
and identical upstream responses, at 2026-07-10 and 2026-10-12, return
different `MetricResult` content (different month windows). -/
theorem activity_differs_across_dates :
    activityExecute "alice" (daysFromCivil 2026 7 10) activityOracle ≠
      activityExecute "alice" (daysFromCivil 2026 10 12) activityOracle := by
  decide

/-- C9 amended: a metric unit is a deterministic function of the subject, the
upstream responses, and the ambient date; the only clock
dependence is through its derived month window and its 180-day repository
filter, so whenever those agree between two runs over the same subject and
upstream responses, the `MetricResult` content is identical. -/
theorem activity_clock_dependence_factored (u : String) (o : Oracle)
    (t1 t2 : Int)
    (hm : activityMonths t1 = activityMonths t2)
    (hr : activityGetRepositories u t1 o = activityGetRepositories u t2 o) :
    activityExecute u t1 o = activityExecute u t2 o := by
  simp only [activityExecute]
  rw [hm, hr]

/-- C9 amended witness: runs at 2026-10-10 and 2026-10-12 share the month
window and the repository filtering, so their results agree. -/
theorem activity_clock_dependence_factored_witness :
    activityExecute "alice" (daysFromCivil 2026 10 10) activityOracle =
      activityExecute "alice" (daysFromCivil 2026 10 12) activityOracle := by
  apply activity_clock_dependence_factored
  · decide
  · decide
